import Mathlib

/-!
Verification of the core trading logic of `etradeTools`
(`etrade_python_client`): the sentiment analyzer and decision engine of
`services/ai_trading_service.py`, the learning-context optimization cycle
and the batch trade executor of `services/tasks.py`, the two-phase order
protocol of `services/etrade_order_service.py`, and the enums of
`database/models.py`.  Python floats are modelled as exact rationals,
database tables as lists of records, and the fallible broker/backend
collaborators as explicit outcome parameters.
-/

namespace EtradeTools

/-! ### String helpers (Python `str.lower`, `str.upper`, `in`, `' '.join`) -/

/-- ASCII lower-casing of one character, as Python `str.lower` acts on the
ASCII strings occurring in this development. -/
def lowerChar (c : Char) : Char :=
  if c.isUpper then Char.ofNat (c.toNat + 32) else c

/-- ASCII upper-casing of one character, as Python `str.upper` acts on the
ASCII strings occurring in this development. -/
def upperChar (c : Char) : Char :=
  if c.isLower then Char.ofNat (c.toNat - 32) else c

/-- Python `s.upper()`. -/
def strUpper (s : String) : String := ⟨s.data.map upperChar⟩

/-- Python `s.lower()`. -/
def strLower (s : String) : String := ⟨s.data.map lowerChar⟩

/-- Whether `pat` is a prefix of `text` (character lists). -/
def isPrefixList : List Char → List Char → Bool
  | [], _ => true
  | _ :: _, [] => false
  | a :: as, b :: bs => a == b && isPrefixList as bs

/-- Auxiliary scan for `strContains`. -/
def containsAux (pat : List Char) : List Char → Bool
  | [] => isPrefixList pat []
  | t :: rest => isPrefixList pat (t :: rest) || containsAux pat rest

/-- Python's substring test `pat in text`. -/
def strContains (text pat : String) : Bool :=
  containsAux pat.data text.data

/-- Python `' '.join(xs)`. -/
def joinSpace : List String → String
  | [] => ""
  | [s] => s
  | s :: rest => s ++ " " ++ joinSpace rest

/-! ### Python values and `float()` conversion

`market_data` is an untyped Python `Dict`; its values are modelled by
`PyVal` (the numeric and string cases, which are the ones the analyzed
code can meet).  `pyFloat` models Python `float(v)`: exact on numbers,
and on strings it accepts plain signed decimal literals (the
exponent/`inf`/`nan` forms accepted by Python do not occur in any claim)
and raises `ValueError` otherwise. -/

inductive PyVal where
  | num (q : ℚ)
  | str (s : String)
  deriving DecidableEq

/-- A raised Python exception, by message. -/
structure PyErr where
  message : String
  deriving DecidableEq

/-- Parse an unsigned decimal literal `digits[.digits]` into a rational. -/
def parseDecimalCore : List Char → Option ℚ
  | [] => none
  | cs =>
    let intPart := cs.takeWhile Char.isDigit
    let rest := cs.dropWhile Char.isDigit
    let digitsToNat : List Char → ℕ :=
      fun ds => ds.foldl (fun acc d => 10 * acc + (d.toNat - 48)) 0
    match rest with
    | [] =>
      if intPart.isEmpty then none
      else some (digitsToNat intPart : ℚ)
    | '.' :: frac =>
      if frac.all Char.isDigit ∧ ¬ (intPart.isEmpty ∧ frac.isEmpty) then
        some ((digitsToNat intPart : ℚ) +
          (digitsToNat frac : ℚ) / ((10 : ℚ) ^ frac.length))
      else none
    | _ => none

/-- Parse an optionally signed decimal literal. -/
def parseDecimal (s : String) : Option ℚ :=
  match s.data with
  | '-' :: rest => (parseDecimalCore rest).map (fun q => -q)
  | '+' :: rest => parseDecimalCore rest
  | cs => parseDecimalCore cs

/-- Python `float(v)`. -/
def pyFloat : PyVal → Except PyErr ℚ
  | .num q => .ok q
  | .str s =>
    match parseDecimal s with
    | some q => .ok q
    | none => .error ⟨"ValueError: could not convert string to float"⟩

/-! ### Enums of `database/models.py` -/

/-- `DecisionType(str, Enum)`: BUY, SELL, HOLD, WATCH. -/
inductive DecisionType where
  | buy
  | sell
  | hold
  | watch
  deriving DecidableEq

/-- `DecisionType(value)` lookup by value; `none` models the `ValueError`
raised for a value that is not a member. -/
def decisionTypeOfValue : String → Option DecisionType
  | "BUY" => some .buy
  | "SELL" => some .sell
  | "HOLD" => some .hold
  | "WATCH" => some .watch
  | _ => none

/-- `UserFeedback(str, Enum)`: GOOD, BAD, NEUTRAL — the only members the
enum defines. -/
inductive UserFeedback where
  | good
  | bad
  | neutral
  deriving DecidableEq

/-- Attribute access `UserFeedback.<name>` on the enum class; `none`
models the `AttributeError` raised for a name that is not a member. -/
def userFeedbackMember : String → Option UserFeedback
  | "GOOD" => some .good
  | "BAD" => some .bad
  | "NEUTRAL" => some .neutral
  | _ => none

/-! ### Sentiment analysis (`ai_trading_service.py`) -/

/-- The fixed positive keyword list of `_fallback_sentiment_analysis`. -/
def positive_words : List String :=
  ["up", "gain", "rise", "bull", "positive", "strong", "growth"]

/-- The fixed negative keyword list of `_fallback_sentiment_analysis`. -/
def negative_words : List String :=
  ["down", "fall", "drop", "bear", "negative", "weak", "decline"]

/-- `market_data` as a Python dict: association list keyed by strings. -/
abbrev MarketData := List (String × PyVal)

/-- Dict membership plus `market_data.get(key, default)`. -/
def dictLookup (md : MarketData) (key : String) : Option PyVal :=
  match md with
  | [] => none
  | (k, v) :: rest => if k == key then some v else dictLookup rest key

/-- `' '.join(news_summaries).lower()`. -/
def newsText (news_summaries : List String) : String :=
  strLower (joinSpace news_summaries)

/-- `sum(1 for word in positive_words if word in news_text)`: the number
of positive keywords occurring in the concatenated headline text. -/
def positiveCount (news_summaries : List String) : ℕ :=
  (positive_words.filter
    (fun w => strContains (newsText news_summaries) w)).length

/-- The number of negative keywords occurring in the concatenated
headline text. -/
def negativeCount (news_summaries : List String) : ℕ :=
  (negative_words.filter
    (fun w => strContains (newsText news_summaries) w)).length

/-- `_fallback_sentiment_analysis` (lines 217–249): price-change term,
keyword polarity term, clamp into [-1, 1].  The unguarded
`float(market_data.get('change_percent', 0))` can raise, which
propagates out of the method (the call sites are outside any local
`try`). -/
def fallback_sentiment_analysis (market_data : MarketData)
    (news_summaries : List String) : Except PyErr (ℚ × String) :=
  let score0 : ℚ := 0
  let step1 : Except PyErr ℚ :=
    match dictLookup market_data "change_percent" with
    | some v =>
      match pyFloat v with
      | .ok change_pct => .ok (score0 + change_pct / 100)
      | .error e => .error e
    | none => .ok score0
  match step1 with
  | .error e => .error e
  | .ok score1 =>
    let positive_count := positiveCount news_summaries
    let negative_count := negativeCount news_summaries
    let score2 :=
      if positive_count + negative_count > 0 then
        score1 + ((positive_count : ℚ) - (negative_count : ℚ))
          / ((positive_count : ℚ) + (negative_count : ℚ)) * 0.3
      else score1
    let score3 := max (-1 : ℚ) (min 1 score2)
    .ok (score3, "Fallback analysis: " ++ toString positive_count
      ++ " positive, " ++ toString negative_count ++ " negative signals")

/-- Outcome of one call to the generative backend for sentiment analysis:
`none` models every failure route into the fallback (model not
configured, the API raising, or `json.loads`/`float` failing on the
response), `some (s, summary)` a parsed `{sentiment_score, summary}`. -/
abbrev SentimentBackend := Option (ℚ × String)

/-- `analyze_market_sentiment` (lines 44–104): on a parsed backend result
clamp the score into [-1, 1]; otherwise delegate to the fallback, whose
exceptions propagate (the fallback calls sit outside / after the `try`). -/
def analyze_market_sentiment (backend : SentimentBackend)
    (market_data : MarketData) (news_summaries : List String) :
    Except PyErr (ℚ × String) :=
  match backend with
  | some (s, summary) => .ok (max (-1 : ℚ) (min 1 s), summary)
  | none => fallback_sentiment_analysis market_data news_summaries

/-- The spec's closed-form news polarity:
`(positiveHits − negativeHits)/(positiveHits + negativeHits)`, and `0`
when there are no keyword hits. -/
def newsPolarity (news_summaries : List String) : ℚ :=
  let p := positiveCount news_summaries
  let n := negativeCount news_summaries
  if p + n > 0 then ((p : ℚ) - (n : ℚ)) / ((p : ℚ) + (n : ℚ)) else 0

/-! ### Number formatting used in rationales -/

/-- Fraction digits of `q ∈ [0, 1)`, most significant first, with fuel. -/
def fracDigits : ℕ → ℚ → String
  | 0, _ => ""
  | _ + 1, 0 => ""
  | fuel + 1, q =>
    let d := (Int.floor (q * 10)).toNat
    toString d ++ fracDigits fuel (q * 10 - (d : ℚ))

/-- Decimal rendering of a rational, modelling Python string
interpolation of a float.  Agrees with Python `str` on the
exactly-representable decimal values the analyzed code interpolates; no
claim depends on the digits this produces. -/
def decimalString (q : ℚ) : String :=
  let sign := if q < 0 then "-" else ""
  let n := (Int.floor (abs q)).toNat
  let frac := fracDigits 17 (abs q - (n : ℚ))
  sign ++ toString n ++ (if frac.isEmpty then ".0" else "." ++ frac)

/-- Python `f"{q:.2f}"` for the values the analyzed code formats, whose
hundredfold is an integer (so no rounding-mode subtlety arises). -/
def fmt2 (q : ℚ) : String :=
  let sign := if q < 0 then "-" else ""
  let m := (Int.floor (abs q * 100 + 1 / 2)).toNat
  sign ++ toString (m / 100) ++ "." ++
    (if m % 100 < 10 then "0" else "") ++ toString (m % 100)

/-! ### Decision engine (`ai_trading_service.py`) -/

/-- The `ConfigManager` values consumed by the analyzed code:
`AI_SERVICES.AI_CONFIDENCE_THRESHOLD` and `AI_SERVICES.MAX_TRADE_AMOUNT`
from `config.ini`. -/
structure Config where
  ai_confidence_threshold : ℚ
  max_trade_amount : ℚ
  deriving DecidableEq

/-- An `AIDecision` record as constructed by the decision engine
(`created_at`/feedback columns are filled by the database, not here). -/
structure AIDecision where
  symbol : String
  decision_type : DecisionType
  confidence_score : ℚ
  rationale : String
  price_target : Option ℚ
  deriving DecidableEq

/-- A backend response for `generate_trading_decision` that survived
`json.loads`: the fields read via `result.get(...)`.  A response whose
`confidence` is not float-convertible makes the whole `try` fail and is
modelled as no response at all (the fallback route). -/
structure BackendDecision where
  decision : Option String
  confidence : Option ℚ
  rationale : Option String
  price_target : Option ℚ
  deriving DecidableEq

/-- The `sentiment_data` dict: `generate_trading_decision`'s fallback
reads only `sentiment_data.get('sentiment_score', 0.0)`. -/
structure SentimentData where
  sentiment_score : Option ℚ
  deriving DecidableEq

/-- The primary path of `generate_trading_decision` (lines 176–209):
parse the decision token (unrecognized values fall back to HOLD via the
`ValueError` handler), then apply the confidence gate against the
configured threshold. -/
def primary_decision (cfg : Config) (symbol : String)
    (result : BackendDecision) : AIDecision :=
  let decision_type_str := strUpper (result.decision.getD "HOLD")
  let confidence := result.confidence.getD 0
  let rationale := result.rationale.getD "No rationale provided"
  let decision_type := (decisionTypeOfValue decision_type_str).getD .hold
  let gated :=
    if confidence < cfg.ai_confidence_threshold then
      (DecisionType.hold,
        rationale ++ " (Confidence below threshold: "
          ++ decimalString confidence ++ ")")
    else (decision_type, rationale)
  { symbol := symbol
    decision_type := gated.1
    confidence_score := confidence
    rationale := gated.2
    price_target :=
      result.price_target.bind (fun pt => if pt = 0 then none else some pt) }

/-- The rule-based raw decision of `_fallback_trading_decision`
(lines 261–279): decision type, confidence, and rationale before the
gate. -/
def fallback_raw (sentiment_score : ℚ) : DecisionType × ℚ × String :=
  if sentiment_score > 0.3 then
    (DecisionType.buy, (0.6 : ℚ),
      "Fallback analysis: " ++ "Positive sentiment ("
        ++ fmt2 sentiment_score ++ ")")
  else if sentiment_score < -0.3 then
    (DecisionType.sell, (0.6 : ℚ),
      "Fallback analysis: " ++ "Negative sentiment ("
        ++ fmt2 sentiment_score ++ ")")
  else
    (DecisionType.hold, (0.5 : ℚ),
      "Fallback analysis: " ++ "Neutral sentiment ("
        ++ fmt2 sentiment_score ++ "), holding position")

/-- `_fallback_trading_decision` (lines 251–292): the raw rule-based
decision, then the confidence gate against the configured threshold
(lines 281–285). -/
def fallback_trading_decision (cfg : Config) (symbol : String)
    (sentiment_data : SentimentData) : AIDecision :=
  let sentiment_score := sentiment_data.sentiment_score.getD 0
  let raw := fallback_raw sentiment_score
  let gated :=
    if raw.2.1 < cfg.ai_confidence_threshold then
      (DecisionType.hold, raw.2.2 ++ " (Below confidence threshold)")
    else (raw.1, raw.2.2)
  { symbol := symbol
    decision_type := gated.1
    confidence_score := raw.2.1
    rationale := gated.2
    price_target := none }

/-- `generate_trading_decision` (lines 106–215).  `backend = none`
models the routes into the fallback: the Gemini model not configured, or
any exception inside the `try` (API failure, unparsable JSON,
non-numeric `confidence`).  Portfolio data, market data and user
preferences only feed the prompt text and do not influence the result on
either path, so they are omitted here. -/
def generate_trading_decision (cfg : Config) (symbol : String)
    (sentiment_data : SentimentData)
    (backend : Option BackendDecision) : AIDecision :=
  match backend with
  | none => fallback_trading_decision cfg symbol sentiment_data
  | some result => primary_decision cfg symbol result

/-- The raw (pre-gate) confidence of a `generate_trading_decision`
invocation, on whichever path it takes. -/
def rawConfidence (sentiment_data : SentimentData)
    (backend : Option BackendDecision) : ℚ :=
  match backend with
  | some result => result.confidence.getD 0
  | none => (fallback_raw (sentiment_data.sentiment_score.getD 0)).2.1

/-- The raw (pre-gate) rationale of a `generate_trading_decision`
invocation, on whichever path it takes. -/
def rawRationale (sentiment_data : SentimentData)
    (backend : Option BackendDecision) : String :=
  match backend with
  | some result => result.rationale.getD "No rationale provided"
  | none => (fallback_raw (sentiment_data.sentiment_score.getD 0)).2.2

/-! ### Database rows (`database/models.py`) and the learning cycle
(`optimize_ai_learning`, `services/tasks.py` lines 263–356) -/

/-- A row of the `ai_decisions` table.  Timestamps are integers
(seconds). -/
structure AIDecisionRow where
  symbol : String
  decision_type : DecisionType
  confidence_score : ℚ
  rationale : String
  created_at : Int
  executed_at : Option Int
  outcome_value : Option ℚ
  user_feedback : Option UserFeedback
  feedback_timestamp : Option Int
  price_target : Option ℚ
  deriving DecidableEq

/-- The `learning_parameters` JSON committed by `optimize_ai_learning`. -/
structure LearningParameters where
  confidence_threshold : ℚ
  max_trade_amount : ℚ
  risk_adjustment : ℚ
  deriving DecidableEq

/-- The `feedback_summary` JSON committed by `optimize_ai_learning`. -/
structure FeedbackSummary where
  total_feedback : ℕ
  positive_feedback : ℕ
  negative_feedback : ℕ
  accuracy_rate : ℚ
  deriving DecidableEq

/-- The `performance_metrics` JSON committed by `optimize_ai_learning`
(`last_optimization` is the cycle's wall-clock time). -/
structure PerformanceMetrics where
  total_decisions : ℕ
  successful_trades : ℕ
  accuracy_rate : ℚ
  last_optimization : Int
  deriving DecidableEq

/-- A row of the `ai_learning_context` table. -/
structure AILearningContext where
  version : ℕ
  learning_parameters : LearningParameters
  feedback_summary : FeedbackSummary
  performance_metrics : PerformanceMetrics
  is_active : Bool
  deriving DecidableEq

/-- The database tables touched by the tasks under verification. -/
structure DBState where
  decisions : List AIDecisionRow
  contexts : List AILearningContext
  deriving DecidableEq

/-- The contexts with `is_active = true`. -/
def activeContexts (st : DBState) : List AILearningContext :=
  st.contexts.filter (fun c => c.is_active)

/-- The version of the active context, when one exists. -/
def activeVersion (st : DBState) : Option ℕ :=
  ((activeContexts st).head?).map (fun c => c.version)

/-- The `confidence_threshold` carried by the active context, when one
exists.  No code path of the decision engine reads it. -/
def activeThreshold (st : DBState) : Option ℚ :=
  ((activeContexts st).head?).map
    (fun c => c.learning_parameters.confidence_threshold)

/-- `timedelta(days=30)` in seconds. -/
def thirtyDays : Int := 30 * 86400

/-- The query of lines 272–277: decisions whose `user_feedback` is not
null and whose `feedback_timestamp` is after `now - 30 days` (a null
timestamp fails the SQL comparison). -/
def feedbackWindow (now : Int) (decisions : List AIDecisionRow) :
    List AIDecisionRow :=
  decisions.filter (fun d =>
    d.user_feedback.isSome &&
      (match d.feedback_timestamp with
       | some t => decide (now - thirtyDays < t)
       | none => false))

/-- Result reported by one optimization cycle. -/
inductive CycleResult where
  | success (version : ℕ)
  | noFeedback
  | error (message : String)
  deriving DecidableEq

/-- `optimize_ai_learning` (lines 263–356) as a transition on the
database state.  Feedback counting looks up the enum members
`UserFeedback.POSITIVE` / `UserFeedback.NEGATIVE` (lines 287, 289);
a failed member lookup is the `AttributeError` swallowed by the task's
outer `except`, which reports an error with no state change.  Fetching
the active context with `scalar_one_or_none` raises when more than one
row is active.  In the one-active-row branch the ORM clears that row's
flag, which equals clearing the flag of every active row there. -/
def optimize_ai_learning (cfg : Config) (now : Int) (st : DBState) :
    DBState × CycleResult :=
  let decisions_with_feedback := feedbackWindow now st.decisions
  if decisions_with_feedback.isEmpty then
    (st, .noFeedback)
  else
    match userFeedbackMember "POSITIVE", userFeedbackMember "NEGATIVE" with
    | some pos, some neg =>
      let total_feedback := decisions_with_feedback.length
      let positive_feedback :=
        (decisions_with_feedback.filter
          (fun d => d.user_feedback == some pos)).length
      let negative_feedback :=
        (decisions_with_feedback.filter
          (fun d => d.user_feedback == some neg)).length
      let accuracy_rate : ℚ :=
        if total_feedback > 0 then
          (positive_feedback : ℚ) / (total_feedback : ℚ)
        else 0
      let new_learning_params : LearningParameters :=
        { confidence_threshold :=
            max (0.5 : ℚ) (min 0.9 (0.7 + (accuracy_rate - 0.5)))
          max_trade_amount := cfg.max_trade_amount
          risk_adjustment := 1.0 + (accuracy_rate - 0.5) * 0.2 }
      let feedback_summary : FeedbackSummary :=
        { total_feedback := total_feedback
          positive_feedback := positive_feedback
          negative_feedback := negative_feedback
          accuracy_rate := accuracy_rate }
      let performance_metrics : PerformanceMetrics :=
        { total_decisions := total_feedback
          successful_trades := positive_feedback
          accuracy_rate := accuracy_rate
          last_optimization := now }
      match activeContexts st with
      | [] =>
        let new_context : AILearningContext :=
          { version := 1
            learning_parameters := new_learning_params
            feedback_summary := feedback_summary
            performance_metrics := performance_metrics
            is_active := true }
        ({ st with contexts := st.contexts ++ [new_context] }, .success 1)
      | [c] =>
        let deactivated := st.contexts.map
          (fun x => if x.is_active then { x with is_active := false } else x)
        let new_context : AILearningContext :=
          { version := c.version + 1
            learning_parameters := new_learning_params
            feedback_summary := feedback_summary
            performance_metrics := performance_metrics
            is_active := true }
        ({ st with contexts := deactivated ++ [new_context] },
          .success (c.version + 1))
      | _ => (st, .error "MultipleResultsFound")
    | _, _ => (st, .error "AttributeError: POSITIVE")

/-- N sequential optimization cycles, one per wall-clock instant. -/
def runCycles (cfg : Config) (st : DBState) : List Int → DBState
  | [] => st
  | now :: rest => runCycles cfg (optimize_ai_learning cfg now st).1 rest

/-! ### Order execution (`etrade_order_service.py`, `tasks.py`
`execute_etrade_trades` lines 492–626)

Broker HTTP calls are modelled as an event trace.  A call counter `k`
is threaded through: each Preview call mints the fresh value `k` (the
fresh `clientOrderId` of the request, and the broker-issued `previewId`
of the response, are both modelled by it), and a success oracle
`ok : ℕ → Bool` decides whether the call at index `k` succeeds (HTTP
failure, missing `PreviewIds`, and broker rejection all count as
failure). -/

/-- One `Position` entry of the portfolio JSON. -/
structure PositionRow where
  symbolDescription : String
  quantity : Int
  deriving DecidableEq

/-- The `AccountPortfolio` list, each entry holding its `Position` list. -/
abbrev Portfolio := List (List PositionRow)

/-- The possible success/failure of each broker call, by call index. -/
abbrev BrokerOracle := ℕ → Bool

/-- A broker API call issued by the executor. -/
inductive BrokerEvent where
  | previewOrder (symbol action : String) (quantity : Int) (previewId : ℕ)
  | placeOrder (symbol action : String) (quantity : Int) (previewId : ℕ)
  deriving DecidableEq

/-- The position search of lines 562–582: walk the `AccountPortfolio`
entries and their `Position` lists, stopping at the first entry whose
`symbolDescription` matches (the double `break`). -/
def findPosition : Portfolio → String → Option PositionRow
  | [], _ => none
  | ps :: rest, symbol =>
    match ps.find? (fun p => p.symbolDescription == symbol) with
    | some p => some p
    | none => findPosition rest symbol

/-- `preview_equity_order` (lines 19–106): issue the Preview call;
return the broker `previewId` on success, an exception otherwise. -/
def preview_equity_order (ok : BrokerOracle) (k : ℕ)
    (symbol action : String) (quantity : Int) :
    List BrokerEvent × Except PyErr ℕ × ℕ :=
  ([.previewOrder symbol action quantity k],
    if ok k then .ok k else .error ⟨"Failed to preview order"⟩,
    k + 1)

/-- `place_equity_order` (lines 108–205): first preview the order to get
a preview ID, then issue the Place call carrying exactly that
`previewId`.  Returns whether the Place call succeeded. -/
def place_equity_order (ok : BrokerOracle) (k : ℕ)
    (symbol action : String) (quantity : Int) :
    List BrokerEvent × Bool × ℕ :=
  let pv := preview_equity_order ok k symbol action quantity
  match pv.2.1 with
  | .error _ => (pv.1, false, pv.2.2)
  | .ok preview_id =>
    (pv.1 ++ [.placeOrder symbol action quantity preview_id],
      ok pv.2.2, pv.2.2 + 1)

/-- Lines 584–600 of `execute_etrade_trades`: preview the order (the
returned preview is unused), then call `place_equity_order`; an
exception from either call is caught by the per-decision `except` and
the loop continues. -/
def previewThenPlace (ok : BrokerOracle) (k : ℕ)
    (symbol action : String) (quantity : Int) :
    List BrokerEvent × Bool × ℕ :=
  let pv := preview_equity_order ok k symbol action quantity
  match pv.2.1 with
  | .error _ => (pv.1, false, pv.2.2)
  | .ok _ =>
    let pl := place_equity_order ok pv.2.2 symbol action quantity
    (pv.1 ++ pl.1, pl.2.1, pl.2.2)

/-- Lines 555–615: execute one AI decision.  BUY orders go straight to
preview/place with quantity 1; SELL orders first query the portfolio —
no position entry means the decision is skipped with no API calls,
while a found entry clamps the quantity to
`min(quantity, position.quantity)`.  The returned flag says whether the
Place call succeeded (and `executed_at` is to be set). -/
def executeDecision (ok : BrokerOracle) (portfolio : Portfolio) (k : ℕ)
    (d : AIDecisionRow) : List BrokerEvent × Bool × ℕ :=
  let order_action := if d.decision_type == .buy then "BUY" else "SELL"
  let quantity : Int := 1
  if order_action == "SELL" then
    match findPosition portfolio d.symbol with
    | none => ([], false, k)
    | some p =>
      previewThenPlace ok k d.symbol order_action (min quantity p.quantity)
  else
    previewThenPlace ok k d.symbol order_action quantity

/-- The execution loop over the selected decisions as written at lines
555–615, with per-decision fault isolation: each decision yields its
own events and outcome.  (In the source this loop is dead code — see
`execute_etrade_trades` — but its body is real and is modelled here as
written.) -/
def execBatch (ok : BrokerOracle) (portfolio : Portfolio) (k : ℕ) :
    List AIDecisionRow → List (AIDecisionRow × List BrokerEvent × Bool) × ℕ
  | [] => ([], k)
  | d :: rest =>
    let one := executeDecision ok portfolio k d
    let tail := execBatch ok portfolio one.2.2 rest
    ((d, one.1, one.2.1) :: tail.1, tail.2)

/-- The full broker-call trace of a batch, in call order. -/
def batchTrace (results : List (AIDecisionRow × List BrokerEvent × Bool)) :
    List BrokerEvent :=
  (results.map (fun r => r.2.1)).flatten

/-- `decision.executed_at = datetime.now()` on Place success; untouched
otherwise. -/
def updateRow (now : Int) (d : AIDecisionRow) (done : Bool) : AIDecisionRow :=
  if done then { d with executed_at := some now } else d

/-- The eligibility filter of the query at lines 533–542:
`confidence_score` at or above the configured threshold, `executed_at`
null, and decision type BUY or SELL. -/
def eligibleForExecution (cfg : Config) (d : AIDecisionRow) : Bool :=
  decide (cfg.ai_confidence_threshold ≤ d.confidence_score) &&
    d.executed_at == none &&
    (d.decision_type == .buy || d.decision_type == .sell)

/-- `ORDER BY created_at DESC`: newer rows first. -/
def recentFirst (a b : AIDecisionRow) : Prop := b.created_at ≤ a.created_at

instance : DecidableRel recentFirst := fun a b =>
  inferInstanceAs (Decidable (b.created_at ≤ a.created_at))

instance : IsTotal AIDecisionRow recentFirst :=
  ⟨fun a b => le_total b.created_at a.created_at⟩

instance : IsTrans AIDecisionRow recentFirst :=
  ⟨fun _ _ _ hab hbc => le_trans hbc hab⟩

/-- The decision selection of lines 533–543: filter by eligibility,
order newest-first, `LIMIT 5`. -/
def selectDecisions (cfg : Config) (decisions : List AIDecisionRow) :
    List AIDecisionRow :=
  ((decisions.filter (eligibleForExecution cfg)).insertionSort
    recentFirst).take 5

/-- The environment guards checked before the loop of
`execute_etrade_trades`: authentication, the auto-trading flag, stored
user preferences, and the E*TRADE account list (the first account's
`accountIdKey` is used; a missing list or empty key skips the run). -/
structure ExecEnv where
  authenticated : Bool
  auto_trading_enabled : Bool
  has_user_preferences : Bool
  accounts : List String
  portfolio : Portfolio
  oracle : BrokerOracle

/-- The status dict a task run returns. -/
inductive TaskStatus where
  | skipped (message : String)
  | success (trades_executed : ℕ)
  | error (message : String)
  deriving DecidableEq

/-- The status returned by `execute_etrade_trades` (lines 492–626), by
path.  `tasks.py` never imports `ETradeOrderService` (its imports, lines
15–25, bring in only `ETradeAuth` and `ETradeAccountService`), so the
initialization `ETradeOrderService(etrade_auth)` at line 553 raises
`NameError` — after the selection query but before the loop — whenever
the guards pass and eligible decisions exist; the task's outer `except`
(line 623) reports it as an error.  An empty selection returns success
with zero trades at line 545, before line 553 is reached. -/
def execute_etrade_trades_status (cfg : Config) (env : ExecEnv)
    (st : DBState) : TaskStatus :=
  if !env.authenticated then .skipped "E*TRADE not authenticated"
  else if !env.auto_trading_enabled then .skipped "Auto-trading disabled"
  else if !env.has_user_preferences then
    .skipped "No user preferences found"
  else
    match env.accounts.head? with
    | none => .skipped "No E*TRADE accounts found"
    | some key =>
      if key == "" then .skipped "No valid account ID key found"
      else if (selectDecisions cfg st.decisions).isEmpty then
        .success 0
      else .error "NameError: name 'ETradeOrderService' is not defined"

/-- The per-decision results (events issued, Place success) of one
`execute_etrade_trades` run.  Every path returns before the execution
loop — the guard paths and the empty-selection path by an early
`return`, and the eligible-decision path by the line-553 `NameError` —
so no run processes any decision or issues any broker call.  Lines
555–615, the loop body as written, are dead code; `execBatch` models
them. -/
def execute_etrade_trades (cfg : Config) (env : ExecEnv) (st : DBState) :
    List (AIDecisionRow × List BrokerEvent × Bool) :=
  match execute_etrade_trades_status cfg env st with
  | .skipped _ => []
  | .success _ => []
  | .error _ => []

/-! ### Trace predicates for the two-phase protocol -/

/-- The trace does not start with a Place call. -/
def headNotPlace : List BrokerEvent → Bool
  | [] => true
  | .placeOrder _ _ _ _ :: _ => false
  | _ :: _ => true

/-- Scanning `rest` with `prev` the immediately preceding event: every
Place call carries exactly the previewId of the Preview call immediately
before it, with identical order fields. -/
def placePairedAux : BrokerEvent → List BrokerEvent → Bool
  | _, [] => true
  | prev, e :: rest =>
    (match e with
     | .placeOrder s a q pid => prev == .previewOrder s a q pid
     | _ => true) && placePairedAux e rest

/-- Every Place call in the trace is immediately preceded by the Preview
call whose previewId it consumes, with identical order fields. -/
def placePaired : List BrokerEvent → Bool
  | [] => true
  | e :: rest => headNotPlace (e :: rest) && placePairedAux e rest

/-- The previewIds consumed by Place calls, in call order. -/
def placeIds (trace : List BrokerEvent) : List ℕ :=
  trace.filterMap (fun e =>
    match e with
    | .placeOrder _ _ _ pid => some pid
    | _ => none)

/-- The identifier carried by an event. -/
def eventId : BrokerEvent → ℕ
  | .previewOrder _ _ _ pid => pid
  | .placeOrder _ _ _ pid => pid

/-- The quantity carried by an event. -/
def eventQuantity : BrokerEvent → Int
  | .previewOrder _ _ q _ => q
  | .placeOrder _ _ q _ => q

/-! ## Theorems -/

/-- The clamp `max(-1.0, min(1.0, x))` lands in `[-1, 1]`. -/
theorem clamp_mem_Icc (x : ℚ) :
    -1 ≤ max (-1 : ℚ) (min 1 x) ∧ max (-1 : ℚ) (min 1 x) ≤ 1 :=
  ⟨le_max_left _ _, max_le (by norm_num) (min_le_left _ _)⟩

/-- A successful fallback sentiment result is the final clamp, hence in
`[-1, 1]`. -/
theorem fallback_sentiment_ok_bounds (market_data : MarketData)
    (news : List String) (s : ℚ) (summary : String)
    (h : fallback_sentiment_analysis market_data news = .ok (s, summary)) :
    -1 ≤ s ∧ s ≤ 1 := by
  simp only [fallback_sentiment_analysis] at h
  split at h
  · exact absurd h (by simp)
  · simp only [Except.ok.injEq, Prod.mk.injEq] at h
    rcases h with ⟨hs, -⟩
    rw [← hs]
    exact clamp_mem_Icc _

/-- The branching news term of the fallback equals adding
`0.3 * newsPolarity`. -/
theorem score_news_term_eq (s1 : ℚ) (news : List String) :
    (if positiveCount news + negativeCount news > 0 then
      s1 + ((positiveCount news : ℚ) - (negativeCount news : ℚ))
        / ((positiveCount news : ℚ) + (negativeCount news : ℚ)) * 0.3
    else s1) = s1 + 0.3 * newsPolarity news := by
  unfold newsPolarity
  by_cases h : positiveCount news + negativeCount news > 0 <;> simp only [h, if_true, if_false, reduceIte] <;> ring

/-- C6: the fallback sentiment path returns
`clamp(-1, 1, change_percent/100 + 0.3 * newsPolarity)` (the
price-change term contributing 0 when the snapshot has no
`change_percent`), where `newsPolarity` is the keyword-hit balance over
the concatenated headlines and 0 when there are no hits; and every
score returned by `analyze_market_sentiment` on either path lies in
[-1, 1]. -/
theorem c6_fallback_sentiment_formula_and_range
    (market_data : MarketData) (news : List String) :
    (∀ c : ℚ, dictLookup market_data "change_percent" = some (PyVal.num c) →
      ∃ summary, fallback_sentiment_analysis market_data news =
        .ok (max (-1) (min 1 (c / 100 + 0.3 * newsPolarity news)), summary))
    ∧ (dictLookup market_data "change_percent" = none →
      ∃ summary, fallback_sentiment_analysis market_data news =
        .ok (max (-1) (min 1 (0.3 * newsPolarity news)), summary))
    ∧ (∀ backend score summary,
        analyze_market_sentiment backend market_data news = .ok (score, summary) →
        -1 ≤ score ∧ score ≤ 1) := by
  refine ⟨?_, ?_, ?_⟩
  · intro c hc
    refine ⟨"Fallback analysis: " ++ toString (positiveCount news)
      ++ " positive, " ++ toString (negativeCount news)
      ++ " negative signals", ?_⟩
    simp only [fallback_sentiment_analysis, hc, pyFloat]
    rw [score_news_term_eq]
    norm_num
  · intro hc
    refine ⟨"Fallback analysis: " ++ toString (positiveCount news)
      ++ " positive, " ++ toString (negativeCount news)
      ++ " negative signals", ?_⟩
    simp only [fallback_sentiment_analysis, hc]
    rw [score_news_term_eq]
    norm_num
  · intro backend score summary h
    cases backend with
    | none => exact fallback_sentiment_ok_bounds _ _ _ _ h
    | some pair =>
      obtain ⟨s, su⟩ := pair
      simp only [analyze_market_sentiment, Except.ok.injEq,
        Prod.mk.injEq] at h
      rcases h with ⟨hs, -⟩
      rw [← hs]
      exact clamp_mem_Icc _

/-- Witness for `c6_fallback_sentiment_formula_and_range` at a concrete
snapshot and headline list. -/
theorem c6_fallback_sentiment_formula_and_range_witness :
    dictLookup [("change_percent", PyVal.num 5)] "change_percent"
        = some (PyVal.num 5)
    ∧ ∃ summary,
        fallback_sentiment_analysis [("change_percent", PyVal.num 5)]
            ["Stocks up on strong growth"] =
          .ok (max (-1) (min 1 ((5 : ℚ) / 100
            + 0.3 * newsPolarity ["Stocks up on strong growth"])), summary) :=
  ⟨rfl, (c6_fallback_sentiment_formula_and_range
    [("change_percent", PyVal.num 5)] ["Stocks up on strong growth"]).1
    5 rfl⟩

/-- C8 counterexample: with the backend absent and the snapshot binding
`change_percent` to the non-numeric string "N/A", the unguarded
`float()` conversion raises and the exception escapes
`analyze_market_sentiment` (the fallback call sites are outside any
`try`), so the operation does not return a result for every input. -/
theorem c8_counterexample :
    analyze_market_sentiment none [("change_percent", PyVal.str "N/A")] []
      = .error ⟨"ValueError: could not convert string to float"⟩ := rfl

/-- C8 amended: `analyze_market_sentiment` returns a (score, summary)
result for every backend outcome, market snapshot, and headline list,
provided the snapshot's `change_percent` value (when present) is
float-convertible; only a non-float-convertible `change_percent` makes
the fallback raise. -/
theorem c8_amended_never_raises (backend : SentimentBackend)
    (market_data : MarketData) (news : List String)
    (h : ∀ v, dictLookup market_data "change_percent" = some v →
      ∃ c, pyFloat v = .ok c) :
    ∃ result, analyze_market_sentiment backend market_data news
      = .ok result := by
  cases backend with
  | some pair => exact ⟨_, rfl⟩
  | none =>
    show ∃ result,
      fallback_sentiment_analysis market_data news = .ok result
    cases hc : dictLookup market_data "change_percent" with
    | none =>
      simp only [fallback_sentiment_analysis, hc]
      exact ⟨_, rfl⟩
    | some v =>
      obtain ⟨c, hcv⟩ := h v hc
      simp only [fallback_sentiment_analysis, hc, hcv]
      exact ⟨_, rfl⟩

/-- Witness for `c8_amended_never_raises` at a concrete numeric
snapshot. -/
theorem c8_amended_never_raises_witness :
    (∀ v, dictLookup [("change_percent", PyVal.num 2)] "change_percent"
        = some v → ∃ c, pyFloat v = .ok c)
    ∧ ∃ result, analyze_market_sentiment none
        [("change_percent", PyVal.num 2)] ["Stocks up"] = .ok result := by
  have h : ∀ v, dictLookup [("change_percent", PyVal.num 2)] "change_percent"
      = some v → ∃ c, pyFloat v = .ok c := by
    intro v hv
    rw [show dictLookup [("change_percent", PyVal.num 2)] "change_percent"
      = some (PyVal.num 2) from rfl] at hv
    cases hv
    exact ⟨2, rfl⟩
  exact ⟨h, c8_amended_never_raises none
    [("change_percent", PyVal.num 2)] ["Stocks up"] h⟩

/-- Python `f"{0.5:.2f}"` is "0.50". -/
theorem fmt2_half : fmt2 (0.5 : ℚ) = "0.50" := by
  have h0 : ¬ ((0.5 : ℚ) < 0) := by norm_num
  have h1 : (|(0.5 : ℚ)| * 100 + 1 / 2) = 101 / 2 := by
    rw [abs_of_nonneg (by norm_num : (0 : ℚ) ≤ 0.5)]
    norm_num
  have h2 : Int.floor ((101 : ℚ) / 2) = 50 := by norm_num
  simp only [fmt2, h1, h2, if_neg h0]
  rfl

/-- The worked C7 scenario fully evaluated: sentiment 0.5, configured
threshold 0.7, backend unavailable. -/
theorem fallback_decision_at_half :
    fallback_trading_decision ⟨0.7, 1000⟩ "AAPL" ⟨some 0.5⟩ =
      { symbol := "AAPL"
        decision_type := .hold
        confidence_score := 0.6
        rationale := "Fallback analysis: Positive sentiment (0.50) (Below confidence threshold)"
        price_target := none } := by
  simp only [fallback_trading_decision, fallback_raw, Option.getD_some]
  rw [if_pos (show (0.5 : ℚ) > 0.3 by norm_num)]
  rw [if_pos (show ((DecisionType.buy, (0.6 : ℚ),
    "Fallback analysis: " ++ "Positive sentiment (" ++ fmt2 0.5 ++ ")")).2.1
      < (0.7 : ℚ) by norm_num)]
  rw [fmt2_half]
  rfl

/-- C7 counterexample: in the worked scenario the gate does force HOLD
and the rationale contains "confidence", but the appended fallback note
is the constant " (Below confidence threshold)", so the rationale
contains neither "0.6" nor "0.7". -/
theorem c7_counterexample :
    (fallback_trading_decision ⟨0.7, 1000⟩ "AAPL" ⟨some 0.5⟩).decision_type
      = DecisionType.hold
    ∧ (fallback_trading_decision ⟨0.7, 1000⟩ "AAPL"
        ⟨some 0.5⟩).confidence_score = 0.6
    ∧ strContains (fallback_trading_decision ⟨0.7, 1000⟩ "AAPL"
        ⟨some 0.5⟩).rationale "confidence" = true
    ∧ strContains (fallback_trading_decision ⟨0.7, 1000⟩ "AAPL"
        ⟨some 0.5⟩).rationale "0.6" = false
    ∧ strContains (fallback_trading_decision ⟨0.7, 1000⟩ "AAPL"
        ⟨some 0.5⟩).rationale "0.7" = false := by
  rw [fallback_decision_at_half]
  exact ⟨rfl, rfl, rfl, rfl, rfl⟩

/-- C7 amended: in the worked scenario the fallback's raw decision is
BUY with confidence 0.6, and the gate forces HOLD with a rationale
containing "confidence" (via the constant note
" (Below confidence threshold)"), though no numeric values appear in
it. -/
theorem c7_amended_scenario :
    fallback_raw (0.5 : ℚ) = (DecisionType.buy, (0.6 : ℚ),
      "Fallback analysis: Positive sentiment (0.50)")
    ∧ (fallback_trading_decision ⟨0.7, 1000⟩ "AAPL"
        ⟨some 0.5⟩).decision_type = DecisionType.hold
    ∧ strContains (fallback_trading_decision ⟨0.7, 1000⟩ "AAPL"
        ⟨some 0.5⟩).rationale "confidence" = true := by
  refine ⟨?_, ?_, ?_⟩
  · rw [show fallback_raw (0.5 : ℚ) = (DecisionType.buy, (0.6 : ℚ),
      "Fallback analysis: " ++ "Positive sentiment (" ++ fmt2 0.5 ++ ")")
      from by
        simp only [fallback_raw]
        rw [if_pos (show (0.5 : ℚ) > 0.3 by norm_num)]]
    rw [fmt2_half]
    rfl
  · rw [fallback_decision_at_half]
  · rw [fallback_decision_at_half]
    rfl

/-- C9 counterexample: the token "Watch" upper-cases to "WATCH", which
is not among BUY/SELL/HOLD, yet `DecisionType("WATCH")` succeeds (WATCH
is a member), so with confidence above the threshold the recorded
decision type is WATCH, not HOLD. -/
theorem c9_counterexample :
    strUpper "Watch" = "WATCH"
    ∧ decisionTypeOfValue "WATCH" = some DecisionType.watch
    ∧ (primary_decision ⟨0.7, 1000⟩ "AAPL"
        { decision := some "Watch", confidence := some 0.9,
          rationale := some "backend rationale",
          price_target := none }).decision_type = DecisionType.watch
    ∧ DecisionType.watch ≠ DecisionType.hold := by
  refine ⟨by decide, by decide, ?_, by decide⟩
  simp only [primary_decision, Option.getD_some]
  rw [if_neg (show ¬ ((0.9 : ℚ) < 0.7) by norm_num)]
  decide

/-- C9 amended: a backend decision token whose upper-casing is not a
`DecisionType` member value — i.e. not one of BUY, SELL, HOLD, WATCH —
is recorded as HOLD (a WATCH token, by contrast, is recorded as
WATCH when the confidence gate passes). -/
theorem c9_amended_unrecognized_maps_to_hold (cfg : Config)
    (symbol : String) (sd : SentimentData) (r : BackendDecision)
    (h : decisionTypeOfValue (strUpper (r.decision.getD "HOLD")) = none) :
    (generate_trading_decision cfg symbol sd (some r)).decision_type
      = DecisionType.hold := by
  show (primary_decision cfg symbol r).decision_type = DecisionType.hold
  simp only [primary_decision, h, Option.getD_none]
  by_cases hc : r.confidence.getD 0 < cfg.ai_confidence_threshold <;>
    simp [hc]

/-- Witness for `c9_amended_unrecognized_maps_to_hold` on the token
"maybe". -/
theorem c9_amended_unrecognized_maps_to_hold_witness :
    decisionTypeOfValue (strUpper ((some "maybe").getD "HOLD")) = none
    ∧ (generate_trading_decision ⟨0.7, 1000⟩ "AAPL" ⟨some 0.5⟩
        (some { decision := some "maybe"
                confidence := some 0.9
                rationale := none
                price_target := none })).decision_type
      = DecisionType.hold :=
  ⟨by decide, c9_amended_unrecognized_maps_to_hold ⟨0.7, 1000⟩ "AAPL"
    ⟨some 0.5⟩ _ (by decide)⟩

/-- C1 counterexample: with an active learning context carrying
`confidence_threshold = 0.9` and the configured threshold 0.5, the
fallback produces a BUY decision of confidence 0.6 — strictly below the
active context's threshold — without forcing HOLD: the gate reads the
static `ConfigManager` threshold, never the active context's. -/
theorem c1_counterexample :
    activeThreshold
      { decisions := []
        contexts := [
          { version := 3
            learning_parameters :=
              { confidence_threshold := 0.9
                max_trade_amount := 1000
                risk_adjustment := 1 }
            feedback_summary :=
              { total_feedback := 10
                positive_feedback := 9
                negative_feedback := 1
                accuracy_rate := 0.9 }
            performance_metrics :=
              { total_decisions := 10
                successful_trades := 9
                accuracy_rate := 0.9
                last_optimization := 0 }
            is_active := true }] } = some 0.9
    ∧ rawConfidence ⟨some 0.5⟩ none = 0.6
    ∧ ((0.6 : ℚ) < 0.9)
    ∧ (generate_trading_decision ⟨0.5, 1000⟩ "AAPL" ⟨some 0.5⟩
        none).decision_type = DecisionType.buy := by
  refine ⟨rfl, ?_, by norm_num, ?_⟩
  · simp only [rawConfidence, fallback_raw, Option.getD_some]
    rw [if_pos (show (0.5 : ℚ) > 0.3 by norm_num)]
  · show (fallback_trading_decision ⟨0.5, 1000⟩ "AAPL"
      ⟨some 0.5⟩).decision_type = DecisionType.buy
    simp only [fallback_trading_decision, fallback_raw, Option.getD_some]
    rw [if_pos (show (0.5 : ℚ) > 0.3 by norm_num)]
    rw [if_neg (show ¬ (((DecisionType.buy, (0.6 : ℚ),
      "Fallback analysis: " ++ "Positive sentiment ("
        ++ fmt2 0.5 ++ ")")).2.1 < (0.5 : ℚ)) by norm_num)]

/-- C1 amended: on both paths of `generate_trading_decision`, a raw
confidence strictly below the **configured**
`AI_CONFIDENCE_THRESHOLD` forces the decision type to HOLD and appends
a threshold note to the raw rationale; the threshold compared against
comes from `ConfigManager`, not from the active `AILearningContext`
(which no decision path reads — see `c1_counterexample`). -/
theorem c1_amended_gate (cfg : Config) (symbol : String)
    (sd : SentimentData) (backend : Option BackendDecision)
    (h : rawConfidence sd backend < cfg.ai_confidence_threshold) :
    (generate_trading_decision cfg symbol sd backend).decision_type
      = DecisionType.hold
    ∧ ((generate_trading_decision cfg symbol sd backend).rationale
        = rawRationale sd backend ++ " (Below confidence threshold)"
      ∨ (generate_trading_decision cfg symbol sd backend).rationale
        = rawRationale sd backend ++ " (Confidence below threshold: "
          ++ decimalString (rawConfidence sd backend) ++ ")") := by
  cases backend with
  | none =>
    simp only [rawConfidence] at h
    simp only [generate_trading_decision, fallback_trading_decision,
      rawConfidence, rawRationale]
    rw [if_pos h]
    exact ⟨rfl, Or.inl rfl⟩
  | some r =>
    simp only [rawConfidence] at h
    simp only [generate_trading_decision, primary_decision,
      rawConfidence, rawRationale]
    rw [if_pos h]
    exact ⟨rfl, Or.inr rfl⟩

/-- Witness for `c1_amended_gate` in the worked scenario. -/
theorem c1_amended_gate_witness :
    rawConfidence ⟨some 0.5⟩ none < (0.7 : ℚ)
    ∧ (generate_trading_decision ⟨0.7, 1000⟩ "AAPL" ⟨some 0.5⟩
        none).decision_type = DecisionType.hold := by
  have h : rawConfidence ⟨some 0.5⟩ none
      < (Config.mk 0.7 1000).ai_confidence_threshold := by
    simp only [rawConfidence, fallback_raw, Option.getD_some]
    rw [if_pos (show (0.5 : ℚ) > 0.3 by norm_num)]
    norm_num
  exact ⟨h, (c1_amended_gate ⟨0.7, 1000⟩ "AAPL" ⟨some 0.5⟩ none h).1⟩

/-- C2: the `UserFeedback` enum defines only GOOD/BAD/NEUTRAL, so the
member lookups `UserFeedback.POSITIVE` / `UserFeedback.NEGATIVE` of
`optimize_ai_learning` raise `AttributeError`: on the concrete
non-empty feedback window below the cycle reports an error, computes no
accuracy rate, and commits no learning context — the state is
unchanged. -/
theorem c2_optimize_feedback_vocabulary_bug :
    userFeedbackMember "POSITIVE" = none
    ∧ userFeedbackMember "NEGATIVE" = none
    ∧ (let st : DBState :=
        { decisions := [
            { symbol := "AAPL"
              decision_type := .buy
              confidence_score := 1
              rationale := "good call"
              created_at := 0
              executed_at := none
              outcome_value := none
              user_feedback := some .good
              feedback_timestamp := some 0
              price_target := none }]
          contexts := [] }
      (feedbackWindow 0 st.decisions).isEmpty = false
      ∧ optimize_ai_learning ⟨1, 1000⟩ 0 st
          = (st, .error "AttributeError: POSITIVE")) :=
  ⟨rfl, rfl, rfl, rfl⟩

/-- Helper: `userFeedbackMember "POSITIVE"` fails, so every cycle leaves
the database state unchanged (empty window: explicit no-op; non-empty
window: the `AttributeError` is caught by the task's outer `except`
before any mutation). -/
theorem optimize_state_unchanged (cfg : Config) (now : Int)
    (st : DBState) : (optimize_ai_learning cfg now st).1 = st := by
  simp only [optimize_ai_learning]
  by_cases h : (feedbackWindow now st.decisions).isEmpty = true
  · rw [if_pos h]
  · rw [if_neg h]
    rfl

/-- Helper: iterated cycles leave the state unchanged. -/
theorem runCycles_eq (cfg : Config) (st : DBState) (nows : List Int) :
    runCycles cfg st nows = st := by
  induction nows generalizing st with
  | nil => rfl
  | cons now rest ih =>
    show runCycles cfg (optimize_ai_learning cfg now st).1 rest = st
    rw [optimize_state_unchanged, ih]

/-- C3: starting from a state with no learning context, any number of
sequential optimization cycles keeps at most one context active; a
cycle whose feedback window is empty is an exact no-op; each cycle
either leaves the active version unchanged or moves it to the previous
active version plus one (1 when none existed); and no context is active
initially.  (With the feedback-vocabulary bug of
`c2_optimize_feedback_vocabulary_bug`, no cycle ever commits, so the
version sequence stays empty and the invariants hold degenerately.) -/
theorem c3_learning_context_invariants (cfg : Config) (st₀ : DBState)
    (h0 : st₀.contexts = []) :
    (∀ nows : List Int,
      (activeContexts (runCycles cfg st₀ nows)).length ≤ 1)
    ∧ (∀ (st : DBState) (now : Int),
        feedbackWindow now st.decisions = [] →
        optimize_ai_learning cfg now st = (st, .noFeedback))
    ∧ (∀ (nows : List Int) (now : Int),
        activeVersion (runCycles cfg st₀ (nows ++ [now]))
          = activeVersion (runCycles cfg st₀ nows)
        ∨ activeVersion (runCycles cfg st₀ (nows ++ [now]))
          = some ((activeVersion (runCycles cfg st₀ nows)).getD 0 + 1))
    ∧ activeVersion st₀ = none := by
  refine ⟨?_, ?_, ?_, ?_⟩
  · intro nows
    rw [runCycles_eq]
    simp [activeContexts, h0]
  · intro st now hw
    unfold optimize_ai_learning
    rw [hw]
    rfl
  · intro nows now
    rw [runCycles_eq, runCycles_eq]
    exact Or.inl rfl
  · simp [activeVersion, activeContexts, h0]

/-- Witness for `c3_learning_context_invariants` at the empty initial
state. -/
theorem c3_learning_context_invariants_witness :
    (DBState.mk [] []).contexts = []
    ∧ ((∀ nows : List Int,
        (activeContexts (runCycles ⟨1, 1000⟩ ⟨[], []⟩ nows)).length ≤ 1)
      ∧ (∀ (st : DBState) (now : Int),
          feedbackWindow now st.decisions = [] →
          optimize_ai_learning ⟨1, 1000⟩ now st = (st, .noFeedback))
      ∧ (∀ (nows : List Int) (now : Int),
          activeVersion (runCycles ⟨1, 1000⟩ ⟨[], []⟩ (nows ++ [now]))
            = activeVersion (runCycles ⟨1, 1000⟩ ⟨[], []⟩ nows)
          ∨ activeVersion (runCycles ⟨1, 1000⟩ ⟨[], []⟩ (nows ++ [now]))
            = some ((activeVersion
                (runCycles ⟨1, 1000⟩ ⟨[], []⟩ nows)).getD 0 + 1))
      ∧ activeVersion ⟨[], []⟩ = none) :=
  ⟨rfl, c3_learning_context_invariants ⟨1, 1000⟩ ⟨[], []⟩ rfl⟩

/-- The three possible outcomes of one preview-then-place sequence:
failed first preview, failed internal preview, or a Place call carrying
the internal preview's id. -/
theorem previewThenPlace_cases (ok : BrokerOracle) (k : ℕ)
    (s a : String) (q : Int) :
    previewThenPlace ok k s a q
      = ([.previewOrder s a q k], false, k + 1)
    ∨ previewThenPlace ok k s a q
      = ([.previewOrder s a q k, .previewOrder s a q (k + 1)],
          false, k + 2)
    ∨ previewThenPlace ok k s a q
      = ([.previewOrder s a q k, .previewOrder s a q (k + 1),
          .placeOrder s a q (k + 1)], ok (k + 2), k + 3) := by
  unfold previewThenPlace place_equity_order preview_equity_order
  by_cases h1 : ok k
  · by_cases h2 : ok (k + 1)
    · right; right
      simp [h1, h2]
    · right; left
      simp [h1, h2]
  · left
    simp [h1]

/-- No run of the trade-execution task processes any decision: every
status path yields an empty per-decision result list. -/
theorem execute_etrade_trades_eq_nil (cfg : Config) (env : ExecEnv)
    (st : DBState) : execute_etrade_trades cfg env st = [] := by
  unfold execute_etrade_trades
  cases execute_etrade_trades_status cfg env st <;> rfl

/-- C4: for every SELL decision of an execution batch, no Preview and
no Place call is issued and the decision's `executed_at` stays unset —
degenerately so: `ETradeOrderService` is unbound in `tasks.py`, so a
run either returns before the loop (failed guard or empty selection)
or dies with the line-553 `NameError`, and no decision is ever
processed.  In particular a held quantity of 0 issues no Preview/Place
call, and the min-clamp clause is vacuous because nothing is ever
submitted.  The last conjunct pins the failure: with all guards
passing and a non-empty selection, the run reports the `NameError`. -/
theorem c4_sell_no_broker_calls (cfg : Config) (env : ExecEnv)
    (st : DBState) :
    execute_etrade_trades cfg env st = []
    ∧ batchTrace (execute_etrade_trades cfg env st) = []
    ∧ (env.authenticated = true → env.auto_trading_enabled = true →
        env.has_user_preferences = true →
        ∀ key, env.accounts.head? = some key → (key == "") = false →
        (selectDecisions cfg st.decisions).isEmpty = false →
        execute_etrade_trades_status cfg env st
          = .error "NameError: name 'ETradeOrderService' is not defined")
      := by
  refine ⟨execute_etrade_trades_eq_nil cfg env st, ?_, ?_⟩
  · rw [execute_etrade_trades_eq_nil]
    rfl
  · intro h1 h2 h3 key hkey hne hsel
    simp [execute_etrade_trades_status, h1, h2, h3, hkey, hne, hsel]

/-- Witness for `c4_sell_no_broker_calls`: all guards pass and one
eligible SELL decision exists, and the run reports the `NameError`. -/
theorem c4_sell_no_broker_calls_witness :
    (selectDecisions ⟨0, 1000⟩
      [{ symbol := "AAPL"
         decision_type := .sell
         confidence_score := 1
         rationale := "r"
         created_at := 0
         executed_at := none
         outcome_value := none
         user_feedback := none
         feedback_timestamp := none
         price_target := none }]).isEmpty = false
    ∧ execute_etrade_trades_status ⟨0, 1000⟩
        ⟨true, true, true, ["key"], [], fun _ => true⟩
        ⟨[{ symbol := "AAPL"
            decision_type := .sell
            confidence_score := 1
            rationale := "r"
            created_at := 0
            executed_at := none
            outcome_value := none
            user_feedback := none
            feedback_timestamp := none
            price_target := none }], []⟩
      = .error "NameError: name 'ETradeOrderService' is not defined" :=
  ⟨by decide,
    (c4_sell_no_broker_calls ⟨0, 1000⟩
      ⟨true, true, true, ["key"], [], fun _ => true⟩
      ⟨[{ symbol := "AAPL"
          decision_type := .sell
          confidence_score := 1
          rationale := "r"
          created_at := 0
          executed_at := none
          outcome_value := none
          user_feedback := none
          feedback_timestamp := none
          price_target := none }], []⟩).2.2
      rfl rfl rfl "key" rfl (by decide) (by decide)⟩

/-- A well-paired trace scans cleanly from any preceding event, since
its head is not a Place call. -/
theorem placePairedAux_of_placePaired (prev : BrokerEvent)
    (ys : List BrokerEvent) (h : placePaired ys = true) :
    placePairedAux prev ys = true := by
  cases ys with
  | nil => rfl
  | cons e rest =>
    simp only [placePaired, Bool.and_eq_true] at h
    obtain ⟨hhead, haux⟩ := h
    cases e with
    | previewOrder s a q pid => simp [placePairedAux, haux]
    | placeOrder s a q pid => simp [headNotPlace] at hhead

/-- Appending a well-paired trace to a well-scanning one scans
cleanly. -/
theorem placePairedAux_append (prev : BrokerEvent)
    (xs ys : List BrokerEvent) (hx : placePairedAux prev xs = true)
    (hy : placePaired ys = true) :
    placePairedAux prev (xs ++ ys) = true := by
  induction xs generalizing prev with
  | nil => simpa using placePairedAux_of_placePaired prev ys hy
  | cons x rest ih =>
    simp only [placePairedAux, Bool.and_eq_true] at hx
    obtain ⟨hjx, haux⟩ := hx
    simp only [List.cons_append, placePairedAux, Bool.and_eq_true]
    exact ⟨hjx, ih x haux⟩

/-- Concatenating well-paired traces yields a well-paired trace. -/
theorem placePaired_append (xs ys : List BrokerEvent)
    (hx : placePaired xs = true) (hy : placePaired ys = true) :
    placePaired (xs ++ ys) = true := by
  cases xs with
  | nil => simpa using hy
  | cons e rest =>
    simp only [placePaired, Bool.and_eq_true, List.cons_append] at hx ⊢
    obtain ⟨hh, ha⟩ := hx
    refine ⟨?_, placePairedAux_append e rest ys ha hy⟩
    cases e with
    | previewOrder s a q pid => rfl
    | placeOrder s a q pid => simp [headNotPlace] at hh

/-- Each preview-then-place sequence is well-paired: its Place call, if
issued, immediately follows the internal Preview call whose id it
consumes. -/
theorem previewThenPlace_placePaired (ok : BrokerOracle) (k : ℕ)
    (s a : String) (q : Int) :
    placePaired (previewThenPlace ok k s a q).1 = true := by
  rcases previewThenPlace_cases ok k s a q with h | h | h <;> rw [h] <;>
    simp [placePaired, placePairedAux, headNotPlace]

/-- For a non-BUY decision the executor takes the SELL route. -/
theorem executeDecision_eq_of_ne_buy (ok : BrokerOracle)
    (portfolio : Portfolio) (k : ℕ) (d : AIDecisionRow)
    (hd : (d.decision_type == DecisionType.buy) = false) :
    executeDecision ok portfolio k d
      = match findPosition portfolio d.symbol with
        | none => ([], false, k)
        | some p =>
          previewThenPlace ok k d.symbol "SELL" (min 1 p.quantity) := by
  unfold executeDecision
  rw [hd]
  rfl

/-- For a BUY decision the executor goes straight to preview/place with
quantity 1. -/
theorem executeDecision_eq_of_buy (ok : BrokerOracle)
    (portfolio : Portfolio) (k : ℕ) (d : AIDecisionRow)
    (hd : (d.decision_type == DecisionType.buy) = true) :
    executeDecision ok portfolio k d
      = previewThenPlace ok k d.symbol "BUY" 1 := by
  unfold executeDecision
  rw [hd]
  rfl

/-- Each per-decision trace is well-paired. -/
theorem executeDecision_placePaired (ok : BrokerOracle)
    (portfolio : Portfolio) (k : ℕ) (d : AIDecisionRow) :
    placePaired (executeDecision ok portfolio k d).1 = true := by
  by_cases hd : (d.decision_type == DecisionType.buy) = true
  · rw [executeDecision_eq_of_buy ok portfolio k d hd]
    exact previewThenPlace_placePaired ok k d.symbol "BUY" 1
  · rw [executeDecision_eq_of_ne_buy ok portfolio k d
      (Bool.not_eq_true _ ▸ Bool.of_not_eq_true hd)]
    cases hfp : findPosition portfolio d.symbol with
    | none => rfl
    | some p =>
      exact previewThenPlace_placePaired ok k d.symbol "SELL"
        (min 1 p.quantity)

/-- The trace of a batch decomposes per decision. -/
theorem batchTrace_cons (r : AIDecisionRow × List BrokerEvent × Bool)
    (rs : List (AIDecisionRow × List BrokerEvent × Bool)) :
    batchTrace (r :: rs) = r.2.1 ++ batchTrace rs := by
  simp [batchTrace]

/-- The whole batch trace is well-paired. -/
theorem execBatch_placePaired (ok : BrokerOracle)
    (portfolio : Portfolio) :
    ∀ (ds : List AIDecisionRow) (k : ℕ),
      placePaired (batchTrace (execBatch ok portfolio k ds).1) = true := by
  intro ds
  induction ds with
  | nil => intro k; rfl
  | cons d rest ih =>
    intro k
    simp only [execBatch, batchTrace_cons]
    exact placePaired_append _ _
      (executeDecision_placePaired ok portfolio k d)
      (ih (executeDecision ok portfolio k d).2.2)

/-- `placeIds` distributes over concatenation. -/
theorem placeIds_append (xs ys : List BrokerEvent) :
    placeIds (xs ++ ys) = placeIds xs ++ placeIds ys := by
  simp [placeIds, List.filterMap_append]

/-- A list of at most one element is vacuously pairwise. -/
theorem pairwise_of_length_le_one {α : Type} {R : α → α → Prop}
    {l : List α} (h : l.length ≤ 1) : l.Pairwise R := by
  match l with
  | [] => exact List.Pairwise.nil
  | [a] => simp
  | a :: b :: t => simp at h

/-- Counter bounds of one preview-then-place sequence: at most one
Place id, lying in the consumed counter interval. -/
theorem previewThenPlace_placeIds (ok : BrokerOracle) (k : ℕ)
    (s a : String) (q : Int) :
    (∀ pid ∈ placeIds (previewThenPlace ok k s a q).1,
      k ≤ pid ∧ pid < (previewThenPlace ok k s a q).2.2)
    ∧ (placeIds (previewThenPlace ok k s a q).1).length ≤ 1
    ∧ k ≤ (previewThenPlace ok k s a q).2.2 := by
  rcases previewThenPlace_cases ok k s a q with h | h | h <;> rw [h]
  · simp [placeIds]
  · simp [placeIds]
  · simp only [placeIds, List.filterMap]
    refine ⟨?_, by simp, by omega⟩
    intro pid hpid
    simp at hpid
    omega

/-- Counter bounds of one executed decision. -/
theorem executeDecision_placeIds (ok : BrokerOracle)
    (portfolio : Portfolio) (k : ℕ) (d : AIDecisionRow) :
    (∀ pid ∈ placeIds (executeDecision ok portfolio k d).1,
      k ≤ pid ∧ pid < (executeDecision ok portfolio k d).2.2)
    ∧ (placeIds (executeDecision ok portfolio k d).1).length ≤ 1
    ∧ k ≤ (executeDecision ok portfolio k d).2.2 := by
  by_cases hd : (d.decision_type == DecisionType.buy) = true
  · rw [executeDecision_eq_of_buy ok portfolio k d hd]
    exact previewThenPlace_placeIds ok k d.symbol "BUY" 1
  · rw [executeDecision_eq_of_ne_buy ok portfolio k d
      (Bool.not_eq_true _ ▸ Bool.of_not_eq_true hd)]
    cases hfp : findPosition portfolio d.symbol with
    | none => simp [placeIds]
    | some p =>
      exact previewThenPlace_placeIds ok k d.symbol "SELL"
        (min 1 p.quantity)

/-- Batch-level counter bounds: Place ids are confined to the consumed
counter interval and strictly increase along the trace. -/
theorem execBatch_placeIds (ok : BrokerOracle) (portfolio : Portfolio) :
    ∀ (ds : List AIDecisionRow) (k : ℕ),
      (∀ pid ∈ placeIds (batchTrace (execBatch ok portfolio k ds).1),
        k ≤ pid ∧ pid < (execBatch ok portfolio k ds).2)
      ∧ k ≤ (execBatch ok portfolio k ds).2
      ∧ (placeIds
          (batchTrace (execBatch ok portfolio k ds).1)).Pairwise (· < ·)
      := by
  intro ds
  induction ds with
  | nil =>
    intro k
    refine ⟨?_, le_refl k, ?_⟩
    · intro pid hpid
      cases hpid
    · exact List.Pairwise.nil
  | cons d rest ih =>
    intro k
    obtain ⟨hbounds, hlen, hk1⟩ :=
      executeDecision_placeIds ok portfolio k d
    obtain ⟨ihbounds, ihk, ihpw⟩ :=
      ih (executeDecision ok portfolio k d).2.2
    simp only [execBatch, batchTrace_cons, placeIds_append]
    refine ⟨?_, le_trans hk1 ihk, ?_⟩
    · intro pid hpid
      rcases List.mem_append.mp hpid with hmem | hmem
      · obtain ⟨h1, h2⟩ := hbounds pid hmem
        exact ⟨h1, lt_of_lt_of_le h2 ihk⟩
      · obtain ⟨h1, h2⟩ := ihbounds pid hmem
        exact ⟨le_trans hk1 h1, h2⟩
    · rw [List.pairwise_append]
      refine ⟨pairwise_of_length_le_one hlen, ihpw, ?_⟩
      intro x hx y hy
      obtain ⟨-, hx2⟩ := hbounds x hx
      obtain ⟨hy1, -⟩ := ihbounds y hy
      exact lt_of_lt_of_le hx2 hy1

/-- C5: in every batch trace, each Place call consumes exactly the
previewId returned by the immediately preceding Preview call for the
same order fields (`placePaired`), and no previewId is consumed by two
Place calls (`placeIds … |>.Nodup`). -/
theorem c5_place_consumes_preceding_previewId (ok : BrokerOracle)
    (portfolio : Portfolio) (k : ℕ) (ds : List AIDecisionRow) :
    placePaired (batchTrace (execBatch ok portfolio k ds).1) = true
    ∧ (placeIds (batchTrace (execBatch ok portfolio k ds).1)).Nodup :=
  ⟨execBatch_placePaired ok portfolio ds k,
    ((execBatch_placeIds ok portfolio ds k).2.2).imp
      (fun h => Nat.ne_of_lt h)⟩

/-- `execBatch` yields one result triple per input decision, in
order. -/
theorem execBatch_map_fst (ok : BrokerOracle) (portfolio : Portfolio) :
    ∀ (ds : List AIDecisionRow) (k : ℕ),
      ((execBatch ok portfolio k ds).1.map (fun r => r.1)) = ds := by
  intro ds
  induction ds with
  | nil => intro k; rfl
  | cons d rest ih =>
    intro k
    simp only [execBatch, List.map_cons, List.cons.injEq, true_and]
    exact ih _

/-- Cross-pairwise property between a prefix and the rest of a pairwise
list. -/
theorem pairwise_take_drop {α : Type} {R : α → α → Prop}
    {l : List α} (h : l.Pairwise R) (n : ℕ) :
    ∀ a ∈ l.take n, ∀ b ∈ l.drop n, R a b := by
  rw [← List.take_append_drop n l] at h
  exact (List.pairwise_append.mp h).2.2

/-- Unpacking the eligibility filter. -/
theorem eligible_spec (cfg : Config) (d : AIDecisionRow)
    (h : eligibleForExecution cfg d = true) :
    cfg.ai_confidence_threshold ≤ d.confidence_score
    ∧ d.executed_at = none
    ∧ (d.decision_type = .buy ∨ d.decision_type = .sell)
    ∧ d.decision_type ≠ .hold ∧ d.decision_type ≠ .watch := by
  simp only [eligibleForExecution, Bool.and_eq_true, decide_eq_true_eq,
    beq_iff_eq, Bool.or_eq_true] at h
  obtain ⟨⟨h1, h2⟩, h3⟩ := h
  refine ⟨h1, h2, h3, ?_, ?_⟩ <;>
    rcases h3 with h3 | h3 <;> rw [h3] <;> intro hcon <;> cases hcon

/-- Every selected decision passes the eligibility filter. -/
theorem selectDecisions_mem (cfg : Config) (l : List AIDecisionRow)
    (d : AIDecisionRow) (h : d ∈ selectDecisions cfg l) :
    eligibleForExecution cfg d = true := by
  have h1 : d ∈ (l.filter
      (eligibleForExecution cfg)).insertionSort recentFirst :=
    List.take_subset _ _ h
  have h2 : d ∈ l.filter (eligibleForExecution cfg) :=
    (List.perm_insertionSort recentFirst _).subset h1
  exact (List.mem_filter.mp h2).2

/-- C10: a trade-execution run processes exactly the selected decisions
(or nothing when an environment guard fails); the selection holds at
most 5 decisions, each with confidence at or above the configured
threshold, `executed_at` unset, and type BUY or SELL (never HOLD or
WATCH); and every selected decision was created no earlier than every
eligible decision left unselected. -/
theorem c10_batch_selection (cfg : Config) (env : ExecEnv)
    (st : DBState) :
    ((execute_etrade_trades cfg env st).map (fun r => r.1)
        = selectDecisions cfg st.decisions
      ∨ execute_etrade_trades cfg env st = [])
    ∧ (selectDecisions cfg st.decisions).length ≤ 5
    ∧ (∀ d ∈ selectDecisions cfg st.decisions,
        cfg.ai_confidence_threshold ≤ d.confidence_score
        ∧ d.executed_at = none
        ∧ (d.decision_type = .buy ∨ d.decision_type = .sell)
        ∧ d.decision_type ≠ .hold ∧ d.decision_type ≠ .watch)
    ∧ (∀ d ∈ selectDecisions cfg st.decisions,
        ∀ e ∈ ((st.decisions.filter
          (eligibleForExecution cfg)).insertionSort recentFirst).drop 5,
        e.created_at ≤ d.created_at) := by
  refine ⟨?_, ?_, ?_, ?_⟩
  · exact Or.inr (execute_etrade_trades_eq_nil cfg env st)
  · exact List.length_take_le 5 _
  · intro d hd
    exact eligible_spec cfg d (selectDecisions_mem cfg st.decisions d hd)
  · intro d hd e he
    have hsorted : ((st.decisions.filter
        (eligibleForExecution cfg)).insertionSort
          recentFirst).Pairwise recentFirst :=
      List.sorted_insertionSort recentFirst _
    exact pairwise_take_drop hsorted 5 d hd e he

/-- Witness for `c10_batch_selection` on a one-row table. -/
theorem c10_batch_selection_witness :
    ({ symbol := "AAPL"
       decision_type := .buy
       confidence_score := 1
       rationale := "r"
       created_at := 0
       executed_at := none
       outcome_value := none
       user_feedback := none
       feedback_timestamp := none
       price_target := none } : AIDecisionRow) ∈
      selectDecisions ⟨0, 1000⟩
        [{ symbol := "AAPL"
           decision_type := .buy
           confidence_score := 1
           rationale := "r"
           created_at := 0
           executed_at := none
           outcome_value := none
           user_feedback := none
           feedback_timestamp := none
           price_target := none }]
    ∧ ((Config.mk 0 1000).ai_confidence_threshold
        ≤ (({ symbol := "AAPL"
              decision_type := .buy
              confidence_score := 1
              rationale := "r"
              created_at := 0
              executed_at := none
              outcome_value := none
              user_feedback := none
              feedback_timestamp := none
              price_target := none } : AIDecisionRow)).confidence_score
      ∧ (({ symbol := "AAPL"
            decision_type := .buy
            confidence_score := 1
            rationale := "r"
            created_at := 0
            executed_at := none
            outcome_value := none
            user_feedback := none
            feedback_timestamp := none
            price_target := none } : AIDecisionRow)).executed_at = none
      ∧ ((({ symbol := "AAPL"
             decision_type := .buy
             confidence_score := 1
             rationale := "r"
             created_at := 0
             executed_at := none
             outcome_value := none
             user_feedback := none
             feedback_timestamp := none
             price_target := none } : AIDecisionRow)).decision_type
            = .buy
        ∨ (({ symbol := "AAPL"
              decision_type := .buy
              confidence_score := 1
              rationale := "r"
              created_at := 0
              executed_at := none
              outcome_value := none
              user_feedback := none
              feedback_timestamp := none
              price_target := none } : AIDecisionRow)).decision_type
            = .sell)
      ∧ (({ symbol := "AAPL"
            decision_type := .buy
            confidence_score := 1
            rationale := "r"
            created_at := 0
            executed_at := none
            outcome_value := none
            user_feedback := none
            feedback_timestamp := none
            price_target := none } : AIDecisionRow)).decision_type
          ≠ .hold
      ∧ (({ symbol := "AAPL"
            decision_type := .buy
            confidence_score := 1
            rationale := "r"
            created_at := 0
            executed_at := none
            outcome_value := none
            user_feedback := none
            feedback_timestamp := none
            price_target := none } : AIDecisionRow)).decision_type
          ≠ .watch) :=
  ⟨by decide,
    (c10_batch_selection ⟨0, 1000⟩
      ⟨true, true, true, ["key"], [], fun _ => true⟩
      ⟨[{ symbol := "AAPL"
          decision_type := .buy
          confidence_score := 1
          rationale := "r"
          created_at := 0
          executed_at := none
          outcome_value := none
          user_feedback := none
          feedback_timestamp := none
          price_target := none }], []⟩).2.2.1 _ (by decide)⟩

end EtradeTools
